import Mathlib

/-
Verification of the GithubToMisskey webhook service (src/run.py) against its
specification.  The Python program is shallowly embedded: JSON documents become
an inductive `Json` type, Python exceptions become an explicit `PyExc` error
type threaded through `Except`, and the two external sinks (the Misskey posting
client and the append-only log file) are modelled by an outcome parameter and
an explicit event trace.
-/

namespace GithubToMisskey

/-- A parsed JSON document.  Numbers are modelled as integers; no behaviour of
this service depends on numeric values. -/
inductive Json where
  | null
  | bool (b : Bool)
  | num (n : Int)
  | str (s : String)
  | arr (elems : List Json)
  | obj (fields : List (String × Json))

/-- Dictionary field lookup; `none` for absent keys and for non-objects. -/
def Json.getField : Json → String → Option Json
  | .obj fields, key => fields.lookup key
  | _, _ => none

/-- The Python exception kinds that the webhook handler distinguishes in its
except-chain (KeyError, ValueError, ConnectionError, PermissionError), plus
TypeError and a catch-all for every other exception class; the latter two are
both handled by the generic `except Exception` arm. -/
inductive PyExc where
  | keyError (key : String)
  | valueError (msg : String)
  | connectionError (msg : String)
  | permissionError (msg : String)
  | typeError (msg : String)
  | other (msg : String)

/-- Models Python `str(e)` on an exception: `str(KeyError(k))` is the key in
quotes, the other exception classes render their message. -/
def PyExc.toStr : PyExc → String
  | .keyError key => "\x27" ++ key ++ "\x27"
  | .valueError msg => msg
  | .connectionError msg => msg
  | .permissionError msg => msg
  | .typeError msg => msg
  | .other msg => msg

/-- Models Python subscription `v[key]` with a string key: KeyError on a dict
without the key, TypeError on every non-dict value. -/
def pyGetItem (v : Json) (key : String) : Except PyExc Json :=
  match v with
  | .obj fields =>
    match fields.lookup key with
    | some w => .ok w
    | none => .error (.keyError key)
  | _ => .error (.typeError "value is not subscriptable by string keys")

/-- Models Python `v.get(key, default)`: only dicts have `.get`; any other
value raises AttributeError (handled by the generic except arm). -/
def pyDictGet (v : Json) (key : String) (default : Json) : Except PyExc Json :=
  match v with
  | .obj fields => .ok ((fields.lookup key).getD default)
  | _ => .error (.other "AttributeError: value has no attribute get")

/-- Models Python `len(v)`: defined for lists, strings and dicts. -/
def pyLen (v : Json) : Except PyExc Nat :=
  match v with
  | .arr elems => .ok elems.length
  | .str s => .ok s.length
  | .obj fields => .ok fields.length
  | _ => .error (.typeError "object has no len")

/-- Models Python iteration `for x in v`: lists yield their elements, strings
their characters, dicts their keys; other values raise TypeError. -/
def pyIter (v : Json) : Except PyExc (List Json) :=
  match v with
  | .arr elems => .ok elems
  | .str s => .ok (s.data.map (fun c => Json.str c.toString))
  | .obj fields => .ok (fields.map (fun p => Json.str p.1))
  | _ => .error (.typeError "object is not iterable")

/-- Models the Python f-string interpolation `str(v)` of a JSON value.  For
scalars this matches CPython exactly; for containers the exact repr text is
abstracted to a placeholder, since no behaviour of this service depends on it
(the service only ever interpolates commit messages, author names and file
names, which are strings in every well-formed payload). -/
def pyStr : Json → String
  | .null => "None"
  | .bool true => "True"
  | .bool false => "False"
  | .num n => toString n
  | .str s => s
  | .arr _ => "[...]"
  | .obj _ => "\x7b...\x7d"

/-- Models `data.get(key).split("/")[-1]` style attribute access: `.split` only
exists on strings, so any non-string (including the `None` default) raises
AttributeError. -/
def pySplitLast (v : Json) : Except PyExc String :=
  match v with
  | .str s => .ok ((s.splitOn "/").getLastD "")
  | _ => .error (.other "AttributeError: value has no attribute split")

/-- ASCII-adequate lowering of a string, modelling Python `str.lower()` on the
characters that matter here. -/
def strLower (s : String) : String := String.mk (s.data.map Char.toLower)

/-- Whether `pat` is a prefix of `l`. -/
def listStartsWith : List Char → List Char → Bool
  | [], _ => true
  | _ :: _, [] => false
  | a :: as, b :: bs => a == b && listStartsWith as bs

/-- Whether `pat` occurs as a contiguous sublist of `l`. -/
def listHasSub (pat : List Char) : List Char → Bool
  | [] => pat.isEmpty
  | c :: rest => listStartsWith pat (c :: rest) || listHasSub pat rest

/-- Models the Python membership test `needle in haystack` on strings. -/
def strContains (needle haystack : String) : Bool :=
  listHasSub needle.data haystack.data

/-- Concatenation of a list of strings, in order. -/
def strConcat (l : List String) : String := l.foldr (fun a b => a ++ b) ""

/-- The lines contributed by one `for file in ...` loop of
`build_commit_info_text`: each iteration appends the f-string
`pre + str(file) + newline`, where `pre` is the literal prefix of the
f-string (two spaces, the kind tag, one space). -/
def fileLines (pre : String) (files : List Json) : String :=
  strConcat (files.map (fun file => pre ++ pyStr file ++ "\n"))

/-- The body of one iteration of the loop in `build_commit_info_text`: the text
appended for a single commit, or the first Python exception raised while
building it.  Field accesses happen in source order: `commit[\x27message\x27]`,
then `commit[\x27author\x27][\x27name\x27]`, then the three `.get` calls with
list defaults, then iteration over the three file lists. -/
def buildCommitBlock (commit : Json) : Except PyExc String :=
  match pyGetItem commit "message" with
  | .error e => .error e
  | .ok message =>
    match pyGetItem commit "author" with
    | .error e => .error e
    | .ok author =>
      match pyGetItem author "name" with
      | .error e => .error e
      | .ok authorName =>
        match pyDictGet commit "modified" (Json.arr []) with
        | .error e => .error e
        | .ok modifiedVal =>
          match pyDictGet commit "added" (Json.arr []) with
          | .error e => .error e
          | .ok addedVal =>
            match pyDictGet commit "removed" (Json.arr []) with
            | .error e => .error e
            | .ok removedVal =>
              match pyIter modifiedVal with
              | .error e => .error e
              | .ok modifiedFiles =>
                match pyIter addedVal with
                | .error e => .error e
                | .ok addedFiles =>
                  match pyIter removedVal with
                  | .error e => .error e
                  | .ok removedFiles =>
                    .ok ("文档已更新～构建可能还需要一段时间，请耐心等待完成，预计1~5分钟:x11:\n\n"
                      ++ "更新日志: " ++ pyStr message ++ "\n"
                      ++ "更新作者: " ++ pyStr authorName ++ "\n"
                      ++ "文件变化（该提交中修改、新增和删除的文件）:\n"
                      ++ "```\n"
                      ++ fileLines "  [修改] " modifiedFiles
                      ++ fileLines "  [新增] " addedFiles
                      ++ fileLines "  [删除] " removedFiles
                      ++ "```\n")

/-- The accumulation loop of `build_commit_info_text`: `all_info_text` starts
empty and each commit appends its block; the first exception aborts the loop
and discards the accumulated text. -/
def buildCommitLoop : List Json → String → Except PyExc String
  | [], acc => .ok acc
  | commit :: rest, acc =>
    match buildCommitBlock commit with
    | .error e => .error e
    | .ok block => buildCommitLoop rest (acc ++ block)

/-- Source function `build_commit_info_text(commits)` from src/run.py: raises
`ValueError("提交数量超过限制")` when more than 100 commits, otherwise builds one
fixed-template block per commit, in input order. -/
def build_commit_info_text (commits : Json) : Except PyExc String :=
  match pyLen commits with
  | .error e => .error e
  | .ok n =>
    if n > 100 then .error (.valueError "提交数量超过限制")
    else
      match pyIter commits with
      | .error e => .error e
      | .ok items => buildCommitLoop items ""

/-- Source function `push_info_to_misskey(all_info_text)` from src/run.py.  The external call
`api.notes_create(text=...)` is modelled by the `notify` parameter: `none`
means the call succeeded, `some e` means it raised exception `e`.  On failure
the function re-raises: ConnectionError when `str(e).lower()` contains
"network", PermissionError when it contains "permission", otherwise the
original exception unchanged (a bare `raise`). -/
def push_info_to_misskey (all_info_text : String) (notify : String → Option PyExc) :
    Except PyExc Unit :=
  match notify all_info_text with
  | none => .ok ()
  | some e =>
    if strContains "network" (strLower e.toStr) then
      .error (.connectionError "与Misskey平台连接失败，请检查网络设置")
    else if strContains "permission" (strLower e.toStr) then
      .error (.permissionError "Misskey平台访问权限验证失败，请检查访问令牌是否正确")
    else
      .error e

/-- Source function `save_info_to_file(all_info_text)` from src/run.py: append the text to the
log file, modelled as a list of appended chunks. -/
def save_info_to_file (all_info_text : String) (fileState : List String) : List String :=
  fileState ++ [all_info_text]

/-- Observable side effects of a request: an attempted Misskey post (the
Notification Sink) and an append to github_push_info.txt (the Persistence
Sink), each carrying the text handed to the sink. -/
inductive Event where
  | notifyAttempt (text : String)
  | fileAppend (text : String)
deriving DecidableEq

/-- Replays the file appends of a trace against a file state, using
`save_info_to_file` for each `fileAppend` event. -/
def applyTrace : List Event → List String → List String
  | [], fileState => fileState
  | Event.notifyAttempt _ :: rest, fileState => applyTrace rest fileState
  | Event.fileAppend text :: rest, fileState =>
      applyTrace rest (save_info_to_file text fileState)

/-- Source function `handle_github_push_event(data)` from src/run.py: reads
`data.get(\x27repository\x27, \x7b\x7d).get(\x27name\x27)` and
`data.get(\x27ref\x27).split(\x27/\x27)[-1]` (logging only), extracts
`commits`, builds the report text, posts it to Misskey, then appends it to the
file — in that order, the first exception aborting the remaining steps.
Returns the outcome together with the trace of sink invocations. -/
def handle_github_push_event (data : Json) (notify : String → Option PyExc) :
    Except PyExc Unit × List Event :=
  match pyDictGet data "repository" (Json.obj []) with
  | .error e => (.error e, [])
  | .ok repoVal =>
    match pyDictGet repoVal "name" Json.null with
    | .error e => (.error e, [])
    | .ok _repoName =>
      match pyDictGet data "ref" Json.null with
      | .error e => (.error e, [])
      | .ok refVal =>
        match pySplitLast refVal with
        | .error e => (.error e, [])
        | .ok _branchName =>
          match pyDictGet data "commits" (Json.arr []) with
          | .error e => (.error e, [])
          | .ok commits =>
            match build_commit_info_text commits with
            | .error e => (.error e, [])
            | .ok all_info_text =>
              match push_info_to_misskey all_info_text notify with
              | .error e => (.error e, [Event.notifyAttempt all_info_text])
              | .ok _ =>
                (.ok (), [Event.notifyAttempt all_info_text,
                          Event.fileAppend all_info_text])

/-- Source function `handle_github_pull_request_event(data)` from src/run.py: logs the event
and does nothing else, so it always succeeds. -/
def handle_github_pull_request_event (_data : Json) : Except PyExc Unit := .ok ()

/-- An HTTP response body as produced by the webhook view: the success body,
the method-not-allowed body, or the error body built by
`generate_error_response` (status "error", a message, a detail, and an
optional error_code). -/
inductive RespBody where
  | success
  | methodNotAllowed
  | err (message detail : String) (error_code : Option String)
deriving DecidableEq

/-- An HTTP response: status code plus JSON body. -/
structure Response where
  status : Nat
  body : RespBody
deriving DecidableEq

/-- Source function `generate_error_response(status_code, message, detail, error_code)`
from src/run.py: the uniform error payload. -/
def generate_error_response (status_code : Nat) (message detail : String)
    (error_code : Option String) : Response :=
  { status := status_code, body := RespBody.err message detail error_code }

/-- The error_code field of a response, when its body is an error body. -/
def Response.errorCode : Response → Option String
  | { status := _, body := RespBody.err _ _ code } => code
  | _ => none

/-- The 200 success response `jsonify(\x7b\x27status\x27: \x27success\x27\x7d), 200`. -/
def successResponse : Response := { status := 200, body := RespBody.success }

/-- Structural check of `push_event_schema` from src/run.py, as enforced by
`jsonschema.validate`: the document must be an object whose key `repository` is
an object with a string key `name`, whose key `ref` is a string, and whose key
`commits` is an array; `repository`, `ref` and `commits` are all required. -/
def push_event_schema_valid (data : Json) : Bool :=
  match data with
  | .obj _ =>
    (match data.getField "repository" with
     | some (.obj rfields) =>
       (match rfields.lookup "name" with
        | some (.str _) => true
        | _ => false)
     | _ => false)
    && (match data.getField "ref" with
        | some (.str _) => true
        | _ => false)
    && (match data.getField "commits" with
        | some (.arr _) => true
        | _ => false)
  | _ => false

/-- Models the call `validate(data, push_event_schema)`: `none` when the
document conforms, `some detail` when `jsonschema.ValidationError` is raised
(the detail text of the library's error object is abstracted to a fixed
description; no behaviour depends on it). -/
def push_event_schema_validate (data : Json) : Option String :=
  if push_event_schema_valid data then none
  else some "数据不符合push事件的JSON模式"

/-- The except-chain of the push branch of `github_webhook` (src/run.py lines
140-156): KeyError maps to 500 KEY_MISSING, ValueError to 400 VALUE_ERROR,
ConnectionError to 500 CONNECTION_ERROR, PermissionError to 500
PERMISSION_ERROR, and every other exception to 500 GENERAL_ERROR. -/
def pushErrorResponse (e : PyExc) : Response :=
  match e with
  | .keyError key =>
      generate_error_response 500 "处理推送事件键不存在错误" (PyExc.toStr (.keyError key))
        (some "KEY_MISSING")
  | .valueError msg =>
      generate_error_response 400 "提交数量异常" msg (some "VALUE_ERROR")
  | .connectionError msg =>
      generate_error_response 500 "与Misskey平台连接失败" msg (some "CONNECTION_ERROR")
  | .permissionError msg =>
      generate_error_response 500 "Misskey平台访问权限验证失败" msg (some "PERMISSION_ERROR")
  | .typeError msg =>
      generate_error_response 500 "处理推送事件失败" msg (some "GENERAL_ERROR")
  | .other msg =>
      generate_error_response 500 "处理推送事件失败" msg (some "GENERAL_ERROR")

/-- Source view function `github_webhook()` from src/run.py, generalised over the schema
validator so that non-invocation of validation can be stated (the production
view is `github_webhook` below, which instantiates `validator` with
`push_event_schema_validate`).  Inputs: the HTTP method, the
`X-GitHub-Event` header (absent headers give `none`), the parsed request body
(`request.get_json(silent=True)`, where `none` models an unparsable body), and
the Misskey sink behaviour.  Output: the HTTP response and the trace of sink
invocations. -/
def github_webhook_with (validator : Json → Option String) (method : String)
    (eventType : Option String) (body : Option Json)
    (notify : String → Option PyExc) : Response × List Event :=
  if method == "POST" then
    match body with
    | none =>
        (generate_error_response 400 "请求体数据不是合法的JSON格式" "无法将请求体解析为JSON格式"
          (some "INVALID_JSON"), [])
    | some data =>
      match validator data with
      | some ve =>
          (generate_error_response 400 "请求体数据格式不符合要求" ve (some "INVALID_SCHEMA"), [])
      | none =>
        if eventType == some "push" then
          match handle_github_push_event data notify with
          | (.ok _, trace) => (successResponse, trace)
          | (.error e, trace) => (pushErrorResponse e, trace)
        else if eventType == some "pull_request" then
          match handle_github_pull_request_event data with
          | .ok _ => (successResponse, [])
          | .error e =>
              (generate_error_response 500 "处理拉取请求事件失败" e.toStr
                (some "PULL_REQUEST_ERROR"), [])
        else
          (successResponse, [])
  else
    ({ status := 405, body := RespBody.methodNotAllowed }, [])

/-- The production webhook view: `github_webhook_with` applied to the real
`push_event_schema` validator. -/
def github_webhook (method : String) (eventType : Option String) (body : Option Json)
    (notify : String → Option PyExc) : Response × List Event :=
  github_webhook_with push_event_schema_validate method eventType body notify

/-
Specification-side vocabulary: well-formedness predicates on commit entries and
the report template described by the spec, for comparison with the embedded
formatter.
-/

/-- Whether an optional field is, when present, an array all of whose elements
are strings (absent fields count as well-formed, defaulting to empty). -/
def isStrArrOpt : Option Json → Bool
  | none => true
  | some (.arr elems) =>
      elems.all (fun j => match j with | .str _ => true | _ => false)
  | some _ => false

/-- A fully well-formed commit entry as the spec describes it: an object with a
string `message`, an `author` object with a string `name`, and `modified`,
`added`, `removed` that are absent or arrays of strings. -/
def StrictCommit (c : Json) : Bool :=
  (match c.getField "message" with | some (.str _) => true | _ => false)
  && (match c.getField "author" with
      | some a => (match a.getField "name" with | some (.str _) => true | _ => false)
      | none => false)
  && isStrArrOpt (c.getField "modified")
  && isStrArrOpt (c.getField "added")
  && isStrArrOpt (c.getField "removed")

/-- The commit message of a well-formed commit (empty string fallback). -/
def commitMessage (c : Json) : String :=
  match c.getField "message" with
  | some (.str s) => s
  | _ => ""

/-- The author name of a well-formed commit (empty string fallback). -/
def commitAuthorName (c : Json) : String :=
  match (c.getField "author").bind (fun a => a.getField "name") with
  | some (.str s) => s
  | _ => ""

/-- The string elements of an optional array field (absent or non-array gives
the empty list; non-string elements are dropped — on well-formed commits there
are none). -/
def strElems (v : Option Json) : List String :=
  match v with
  | some (.arr elems) =>
      elems.filterMap (fun j => match j with | .str s => some s | _ => none)
  | _ => []

/-- The modified-file list of a commit. -/
def commitModified (c : Json) : List String := strElems (c.getField "modified")

/-- The added-file list of a commit. -/
def commitAdded (c : Json) : List String := strElems (c.getField "added")

/-- The removed-file list of a commit. -/
def commitRemoved (c : Json) : List String := strElems (c.getField "removed")

/-- The report block the spec prescribes for one commit: the static
waiting-notice line, the commit message, the author name, and a fenced list of
file changes grouped modified first, then added, then removed, with the literal
tags [修改], [新增], [删除]. -/
def commitBlockSpec (message authorName : String)
    (modified added removed : List String) : String :=
  "文档已更新～构建可能还需要一段时间，请耐心等待完成，预计1~5分钟:x11:\n\n"
    ++ "更新日志: " ++ message ++ "\n"
    ++ "更新作者: " ++ authorName ++ "\n"
    ++ "文件变化（该提交中修改、新增和删除的文件）:\n"
    ++ "```\n"
    ++ strConcat (modified.map (fun f => "  [修改] " ++ f ++ "\n"))
    ++ strConcat (added.map (fun f => "  [新增] " ++ f ++ "\n"))
    ++ strConcat (removed.map (fun f => "  [删除] " ++ f ++ "\n"))
    ++ "```\n"

/-- The spec-side report block of a commit entry, read off its fields. -/
def commitBlockOf (c : Json) : String :=
  commitBlockSpec (commitMessage c) (commitAuthorName c)
    (commitModified c) (commitAdded c) (commitRemoved c)

/-- Whether an optional field is iterable in Python when present: arrays,
strings and objects are iterable; numbers, booleans and None are not. -/
def iterableOpt : Option Json → Bool
  | none => true
  | some (.num _) => false
  | some (.bool _) => false
  | some .null => false
  | some _ => true

/-- A commit entry that is shaped well enough that the only exception the
formatter can raise on it is a KeyError: it is an object, its `author` field
(when present) is an object, and its three file-list fields (when present) are
iterable. -/
def SafeCommit (c : Json) : Bool :=
  (match c with | .obj _ => true | _ => false)
  && (match c.getField "author" with
      | none => true
      | some (.obj _) => true
      | some _ => false)
  && iterableOpt (c.getField "modified")
  && iterableOpt (c.getField "added")
  && iterableOpt (c.getField "removed")

/-- Whether a commit entry lacks one of the nested fields the handler accesses:
`message`, `author`, or `author.name`. -/
def LacksRequiredField (c : Json) : Bool :=
  (c.getField "message").isNone
  || (match c.getField "author" with
      | none => true
      | some a => (a.getField "name").isNone)

/-- Whether an optional value is present and a string. -/
def isStrOpt : Option Json → Bool
  | some (.str _) => true
  | _ => false

/-- Whether an optional value is present and an array. -/
def isArrOpt : Option Json → Bool
  | some (.arr _) => true
  | _ => false

/-- Whether an optional value is present and has a string field `name` (the
shape required of `repository`). -/
def hasNameStr : Option Json → Bool
  | some r => isStrOpt (r.getField "name")
  | none => false

/-- The commits value the push handler extracts:
`data.get(\x27commits\x27, [])`. -/
def commitsJson (data : Json) : Json :=
  (data.getField "commits").getD (Json.arr [])

/-- The response the webhook produces when the Misskey post raises exception
`e` during a push: the substring classification of `push_info_to_misskey`
composed with the except-chain of `github_webhook`.  A message containing
"network" becomes a ConnectionError, a message containing "permission" a
PermissionError; otherwise the original exception is re-raised unchanged and
the except-chain classifies it by its type. -/
def notifyFailureResponse (e : PyExc) : Response :=
  if strContains "network" (strLower e.toStr) then
    pushErrorResponse (.connectionError "与Misskey平台连接失败，请检查网络设置")
  else if strContains "permission" (strLower e.toStr) then
    pushErrorResponse (.permissionError "Misskey平台访问权限验证失败，请检查访问令牌是否正确")
  else
    pushErrorResponse e

/-- A minimal fully well-formed commit entry, for concrete evaluations. -/
def sampleCommit : Json :=
  Json.obj [("message", Json.str "A"),
            ("author", Json.obj [("name", Json.str "X")]),
            ("modified", Json.arr [Json.str "f1"])]

/-- A schema-valid push payload with the given commit list, for concrete
evaluations. -/
def samplePayload (commits : List Json) : Json :=
  Json.obj [("repository", Json.obj [("name", Json.str "repo")]),
            ("ref", Json.str "refs/heads/main"),
            ("commits", Json.arr commits)]

/-
Lemma layer.
-/

theorem strConcat_nil : strConcat [] = "" := rfl

theorem strConcat_cons (a : String) (l : List String) :
    strConcat (a :: l) = a ++ strConcat l := rfl

theorem strConcat_append (l₁ l₂ : List String) :
    strConcat (l₁ ++ l₂) = strConcat l₁ ++ strConcat l₂ := by
  induction l₁ with
  | nil => simp [strConcat_nil, strConcat, String.empty_append]
  | cons a l ih => simp [strConcat_cons, ih, String.append_assoc]

theorem map_pyStr_of_strs (pre : String) (elems : List Json)
    (h : elems.all (fun j => match j with | .str _ => true | _ => false) = true) :
    elems.map (fun file => pre ++ pyStr file ++ "\n")
      = (elems.filterMap (fun j => match j with | .str s => some s | _ => none)).map
          (fun f => pre ++ f ++ "\n") := by
  induction elems with
  | nil => rfl
  | cons a l ih =>
    rw [List.all_cons, Bool.and_eq_true] at h
    obtain ⟨ha, hl⟩ := h
    cases a with
    | str s =>
      simp only [List.map_cons, List.filterMap_cons]
      rw [ih hl]
      rfl
    | null => simp at ha
    | bool b => simp at ha
    | num n => simp at ha
    | arr xs => simp at ha
    | obj fs => simp at ha

theorem strict_field_lines (pre : String) (v : Option Json)
    (h : isStrArrOpt v = true) :
    ∃ files, pyIter (v.getD (Json.arr [])) = .ok files ∧
      fileLines pre files = strConcat ((strElems v).map (fun f => pre ++ f ++ "\n")) := by
  cases v with
  | none => exact ⟨[], rfl, rfl⟩
  | some w =>
    cases w with
    | arr elems =>
      simp only [isStrArrOpt] at h
      refine ⟨elems, rfl, ?_⟩
      unfold fileLines strElems
      rw [map_pyStr_of_strs pre elems h]
    | null => simp [isStrArrOpt] at h
    | bool b => simp [isStrArrOpt] at h
    | num n => simp [isStrArrOpt] at h
    | str s => simp [isStrArrOpt] at h
    | obj fs => simp [isStrArrOpt] at h

theorem pyIter_of_iterable (v : Option Json) (h : iterableOpt v = true) :
    ∃ files, pyIter (v.getD (Json.arr [])) = .ok files := by
  cases v with
  | none => exact ⟨[], rfl⟩
  | some w =>
    cases w with
    | arr elems => exact ⟨elems, rfl⟩
    | str s => exact ⟨_, rfl⟩
    | obj fields => exact ⟨_, rfl⟩
    | null => simp [iterableOpt] at h
    | bool b => simp [iterableOpt] at h
    | num n => simp [iterableOpt] at h

theorem buildCommitBlock_strict (c : Json) (h : StrictCommit c = true) :
    buildCommitBlock c = .ok (commitBlockOf c) := by
  cases c with
  | null => simp [StrictCommit, Json.getField] at h
  | bool b => simp [StrictCommit, Json.getField] at h
  | num n => simp [StrictCommit, Json.getField] at h
  | str s => simp [StrictCommit, Json.getField] at h
  | arr xs => simp [StrictCommit, Json.getField] at h
  | obj fields =>
    simp only [StrictCommit, Json.getField, Bool.and_eq_true] at h
    obtain ⟨⟨⟨⟨hmsg, hauth⟩, hmod⟩, hadd⟩, hrem⟩ := h
    cases hm : fields.lookup "message" with
    | none => rw [hm] at hmsg; simp at hmsg
    | some mv =>
      rw [hm] at hmsg
      cases mv with
      | null => simp at hmsg
      | bool b => simp at hmsg
      | num n => simp at hmsg
      | arr xs => simp at hmsg
      | obj fs => simp at hmsg
      | str msgS =>
        cases hau : fields.lookup "author" with
        | none => rw [hau] at hauth; simp at hauth
        | some av =>
          rw [hau] at hauth
          cases av with
          | null => simp [Json.getField] at hauth
          | bool b => simp [Json.getField] at hauth
          | num n => simp [Json.getField] at hauth
          | arr xs => simp [Json.getField] at hauth
          | str s => simp [Json.getField] at hauth
          | obj afields =>
            simp only [Json.getField] at hauth
            cases hname : afields.lookup "name" with
            | none => rw [hname] at hauth; simp at hauth
            | some nv =>
              rw [hname] at hauth
              cases nv with
              | null => simp at hauth
              | bool b => simp at hauth
              | num n => simp at hauth
              | arr xs => simp at hauth
              | obj fs => simp at hauth
              | str nameS =>
                obtain ⟨mfiles, hmiter, hmlines⟩ :=
                  strict_field_lines "  [修改] " (fields.lookup "modified") hmod
                obtain ⟨afiles, haiter, halines⟩ :=
                  strict_field_lines "  [新增] " (fields.lookup "added") hadd
                obtain ⟨rfiles, hriter, hrlines⟩ :=
                  strict_field_lines "  [删除] " (fields.lookup "removed") hrem
                simp only [buildCommitBlock, pyGetItem, pyDictGet, hm, hau, hname,
                  hmiter, haiter, hriter, hmlines, halines, hrlines,
                  commitBlockOf, commitMessage, commitAuthorName, commitModified,
                  commitAdded, commitRemoved, Json.getField, Option.bind,
                  commitBlockSpec, pyStr]

theorem buildCommitBlock_keyError (c : Json) (hs : SafeCommit c = true)
    (hl : LacksRequiredField c = true) :
    ∃ k, buildCommitBlock c = .error (.keyError k) := by
  cases c with
  | null => simp [SafeCommit] at hs
  | bool b => simp [SafeCommit] at hs
  | num n => simp [SafeCommit] at hs
  | str s => simp [SafeCommit] at hs
  | arr xs => simp [SafeCommit] at hs
  | obj fields =>
    simp only [SafeCommit, Json.getField, Bool.and_eq_true] at hs
    obtain ⟨⟨⟨⟨-, hauth⟩, -⟩, -⟩, -⟩ := hs
    simp only [LacksRequiredField, Json.getField] at hl
    cases hm : fields.lookup "message" with
    | none => exact ⟨"message", by simp [buildCommitBlock, pyGetItem, hm]⟩
    | some mv =>
      rw [hm] at hl
      simp only [Option.isNone_some, Bool.false_or] at hl
      cases hau : fields.lookup "author" with
      | none => exact ⟨"author", by simp [buildCommitBlock, pyGetItem, hm, hau]⟩
      | some av =>
        rw [hau] at hl hauth
        cases av with
        | null => simp at hauth
        | bool b => simp at hauth
        | num n => simp at hauth
        | arr xs => simp at hauth
        | str s => simp at hauth
        | obj afields =>
          simp only [Json.getField] at hl
          cases hn : afields.lookup "name" with
          | some nv => rw [hn] at hl; simp at hl
          | none => exact ⟨"name", by simp [buildCommitBlock, pyGetItem, hm, hau, hn]⟩

theorem buildCommitBlock_safe_ok (c : Json) (hs : SafeCommit c = true)
    (hl : LacksRequiredField c = false) :
    ∃ t, buildCommitBlock c = .ok t := by
  cases c with
  | null => simp [SafeCommit] at hs
  | bool b => simp [SafeCommit] at hs
  | num n => simp [SafeCommit] at hs
  | str s => simp [SafeCommit] at hs
  | arr xs => simp [SafeCommit] at hs
  | obj fields =>
    simp only [SafeCommit, Json.getField, Bool.and_eq_true] at hs
    obtain ⟨⟨⟨⟨-, hauth⟩, hmod⟩, hadd⟩, hrem⟩ := hs
    simp only [LacksRequiredField, Json.getField, Bool.or_eq_false_iff] at hl
    obtain ⟨hlm, hla⟩ := hl
    cases hm : fields.lookup "message" with
    | none => rw [hm] at hlm; simp at hlm
    | some mv =>
      cases hau : fields.lookup "author" with
      | none => rw [hau] at hla; simp at hla
      | some av =>
        rw [hau] at hla hauth
        cases av with
        | null => simp at hauth
        | bool b => simp at hauth
        | num n => simp at hauth
        | arr xs => simp at hauth
        | str s => simp at hauth
        | obj afields =>
          simp only [Json.getField] at hla
          cases hn : afields.lookup "name" with
          | none => rw [hn] at hla; simp at hla
          | some nv =>
            obtain ⟨mfiles, hmiter⟩ := pyIter_of_iterable (fields.lookup "modified") hmod
            obtain ⟨afiles, haiter⟩ := pyIter_of_iterable (fields.lookup "added") hadd
            obtain ⟨rfiles, hriter⟩ := pyIter_of_iterable (fields.lookup "removed") hrem
            cases hb : buildCommitBlock (Json.obj fields) with
            | ok t => exact ⟨t, rfl⟩
            | error e =>
              simp only [buildCommitBlock, pyGetItem, pyDictGet,
                hm, hau, hn, hmiter, haiter, hriter] at hb
              exact Except.noConfusion hb

theorem buildCommitLoop_strict : ∀ (commits : List Json) (acc : String),
    (∀ c ∈ commits, StrictCommit c = true) →
    buildCommitLoop commits acc = .ok (acc ++ strConcat (commits.map commitBlockOf)) := by
  intro commits
  induction commits with
  | nil => intro acc h; simp [buildCommitLoop, strConcat_nil, String.append_empty]
  | cons c rest ih =>
    intro acc h
    have hc := h c (List.mem_cons_self c rest)
    simp only [buildCommitLoop, buildCommitBlock_strict c hc]
    rw [ih (acc ++ commitBlockOf c) (fun x hx => h x (List.mem_cons_of_mem c hx))]
    simp [strConcat_cons, String.append_assoc]

theorem buildCommitLoop_shift : ∀ (commits : List Json) (acc : String),
    buildCommitLoop commits acc
      = match buildCommitLoop commits "" with
        | .error e => .error e
        | .ok t => .ok (acc ++ t) := by
  intro commits
  induction commits with
  | nil => intro acc; simp [buildCommitLoop, String.append_empty]
  | cons c rest ih =>
    intro acc
    cases hb : buildCommitBlock c with
    | error e => simp [buildCommitLoop, hb]
    | ok block =>
      simp only [buildCommitLoop, hb]
      rw [ih (acc ++ block), ih ("" ++ block)]
      cases buildCommitLoop rest "" with
      | error e => rfl
      | ok t => simp [String.empty_append, String.append_assoc]

theorem buildCommitLoop_append (xs ys : List Json) : ∀ (acc : String),
    buildCommitLoop (xs ++ ys) acc
      = match buildCommitLoop xs acc with
        | .error e => .error e
        | .ok t => buildCommitLoop ys t := by
  induction xs with
  | nil => intro acc; rfl
  | cons c rest ih =>
    intro acc
    cases hb : buildCommitBlock c with
    | error e => simp [buildCommitLoop, hb]
    | ok block =>
      simp only [List.cons_append, buildCommitLoop, hb]
      exact ih (acc ++ block)

theorem buildCommitLoop_keyError : ∀ (commits : List Json) (acc : String),
    (∀ c ∈ commits, SafeCommit c = true) →
    (∃ c ∈ commits, LacksRequiredField c = true) →
    ∃ k, buildCommitLoop commits acc = .error (.keyError k) := by
  intro commits
  induction commits with
  | nil =>
    intro acc hs hl
    obtain ⟨c, hc, -⟩ := hl
    exact absurd hc (List.not_mem_nil c)
  | cons c rest ih =>
    intro acc hs hl
    have hsc := hs c (List.mem_cons_self c rest)
    cases hlc : LacksRequiredField c with
    | true =>
      obtain ⟨k, hk⟩ := buildCommitBlock_keyError c hsc hlc
      exact ⟨k, by simp [buildCommitLoop, hk]⟩
    | false =>
      obtain ⟨t, ht⟩ := buildCommitBlock_safe_ok c hsc hlc
      obtain ⟨d, hd, hdl⟩ := hl
      rcases List.mem_cons.mp hd with rfl | hd2
      · rw [hlc] at hdl; cases hdl
      · obtain ⟨k, hk⟩ := ih (acc ++ t)
          (fun x hx => hs x (List.mem_cons_of_mem c hx)) ⟨d, hd2, hdl⟩
        exact ⟨k, by simp [buildCommitLoop, ht, hk]⟩

theorem build_commit_info_text_strict (commits : List Json)
    (hlen : commits.length ≤ 100)
    (h : ∀ c ∈ commits, StrictCommit c = true) :
    build_commit_info_text (Json.arr commits)
      = .ok (strConcat (commits.map commitBlockOf)) := by
  simp only [build_commit_info_text, pyLen, pyIter]
  rw [if_neg (by omega)]
  rw [buildCommitLoop_strict commits "" h, String.empty_append]

theorem schema_valid_elim (data : Json) (h : push_event_schema_valid data = true) :
    ∃ fields rfields refName commits,
      data = Json.obj fields ∧
      fields.lookup "repository" = some (Json.obj rfields) ∧
      (∃ nameS, rfields.lookup "name" = some (Json.str nameS)) ∧
      fields.lookup "ref" = some (Json.str refName) ∧
      fields.lookup "commits" = some (Json.arr commits) := by
  cases data with
  | null => simp [push_event_schema_valid] at h
  | bool b => simp [push_event_schema_valid] at h
  | num n => simp [push_event_schema_valid] at h
  | str s => simp [push_event_schema_valid] at h
  | arr xs => simp [push_event_schema_valid] at h
  | obj fields =>
    simp only [push_event_schema_valid, Json.getField, Bool.and_eq_true] at h
    obtain ⟨⟨hrepo, href⟩, hcomm⟩ := h
    cases hr : fields.lookup "repository" with
    | none => rw [hr] at hrepo; simp at hrepo
    | some rv =>
      rw [hr] at hrepo
      cases rv with
      | null => simp at hrepo
      | bool b => simp at hrepo
      | num n => simp at hrepo
      | str s => simp at hrepo
      | arr xs => simp at hrepo
      | obj rfields =>
        simp only [] at hrepo
        cases hn : rfields.lookup "name" with
        | none => rw [hn] at hrepo; simp at hrepo
        | some nv =>
          rw [hn] at hrepo
          cases nv with
          | null => simp at hrepo
          | bool b => simp at hrepo
          | num n => simp at hrepo
          | arr xs => simp at hrepo
          | obj fs => simp at hrepo
          | str nameS =>
            cases hrf : fields.lookup "ref" with
            | none => rw [hrf] at href; simp at href
            | some refv =>
              rw [hrf] at href
              cases refv with
              | null => simp at href
              | bool b => simp at href
              | num n => simp at href
              | arr xs => simp at href
              | obj fs => simp at href
              | str refName =>
                cases hc : fields.lookup "commits" with
                | none => rw [hc] at hcomm; simp at hcomm
                | some cv =>
                  rw [hc] at hcomm
                  cases cv with
                  | null => simp at hcomm
                  | bool b => simp at hcomm
                  | num n => simp at hcomm
                  | str s => simp at hcomm
                  | obj fs => simp at hcomm
                  | arr commits =>
                    exact ⟨fields, rfields, refName, commits, rfl, hr,
                      ⟨nameS, hn⟩, hrf, hc⟩

theorem handle_push_of_valid (data : Json) (notify : String → Option PyExc)
    (h : push_event_schema_valid data = true) :
    handle_github_push_event data notify
      = match build_commit_info_text (commitsJson data) with
        | .error e => (.error e, [])
        | .ok text =>
          match push_info_to_misskey text notify with
          | .error e => (.error e, [Event.notifyAttempt text])
          | .ok _ => (.ok (), [Event.notifyAttempt text, Event.fileAppend text]) := by
  obtain ⟨fields, rfields, refName, commits, rfl, hrep, ⟨nameS, hname⟩, href, hcomm⟩ :=
    schema_valid_elim data h
  simp only [handle_github_push_event, pyDictGet, pySplitLast, commitsJson,
    Json.getField, hrep, href, hcomm, Option.getD_some]

theorem webhook_push_of_valid (data : Json) (notify : String → Option PyExc)
    (h : push_event_schema_valid data = true) :
    github_webhook "POST" (some "push") (some data) notify
      = match handle_github_push_event data notify with
        | (.ok _, trace) => (successResponse, trace)
        | (.error e, trace) => (pushErrorResponse e, trace) := by
  simp only [github_webhook, github_webhook_with, push_event_schema_validate, h,
    if_true, beq_self_eq_true]

/-
Claim theorems.
-/

/-- C3: for every POST request whose body is not parsable as JSON, the response
is 400 with error_code INVALID_JSON and the empty side-effect trace, and schema
validation is never invoked: the result is the same for every validator
function, since the parse-failure check returns before validation runs. -/
theorem c3_unparsable_body_invalid_json (validator : Json → Option String)
    (eventType : Option String) (notify : String → Option PyExc) :
    github_webhook_with validator "POST" eventType none notify
      = (generate_error_response 400 "请求体数据不是合法的JSON格式" "无法将请求体解析为JSON格式"
          (some "INVALID_JSON"), []) := rfl

/-- C1 counterexample: a POST whose X-GitHub-Event is pull_request and whose
body is the valid JSON object with no fields is answered 400 INVALID_SCHEMA,
not 200: the push-event schema is validated before event-type dispatch, for
every event type. -/
theorem c1_pull_request_schema_counterexample :
    (github_webhook "POST" (some "pull_request") (some (Json.obj []))
        (fun _ => none)).1.status = 400 ∧
    ¬ (github_webhook "POST" (some "pull_request") (some (Json.obj []))
        (fun _ => none)).1.status = 200 ∧
    (github_webhook "POST" (some "pull_request") (some (Json.obj []))
        (fun _ => none)).1.errorCode = some "INVALID_SCHEMA" :=
  ⟨rfl, by decide, rfl⟩

/-- C1 (amended): for every POST whose X-GitHub-Event is pull_request or any
value other than push, if the body parses as JSON and satisfies the push-event
schema (which the code validates for every event type, before dispatch), the
response is 200 success and neither the Notification Sink nor the Persistence
Sink is invoked. -/
theorem c1_non_push_success (eventType : Option String) (data : Json)
    (notify : String → Option PyExc)
    (hev : eventType ≠ some "push")
    (hdata : push_event_schema_valid data = true) :
    github_webhook "POST" eventType (some data) notify = (successResponse, []) := by
  have h1 : (eventType == some "push") = false := beq_eq_false_iff_ne.mpr hev
  simp only [github_webhook, github_webhook_with, push_event_schema_validate,
    hdata, if_true, beq_self_eq_true, h1, Bool.false_eq_true, if_false,
    handle_github_pull_request_event]
  cases eventType == some "pull_request" <;> simp

/-- C1 witness: concrete instance at event type pull_request with a schema-valid
body and a succeeding sink. -/
theorem c1_non_push_success_witness :
    (some "pull_request" ≠ (some "push" : Option String)) ∧
    push_event_schema_valid (samplePayload []) = true ∧
    github_webhook "POST" (some "pull_request") (some (samplePayload []))
        (fun _ => none) = (successResponse, []) :=
  ⟨by decide, rfl,
    c1_non_push_success (some "pull_request") (samplePayload []) (fun _ => none)
      (by decide) rfl⟩

/-- C4: every valid-JSON push payload that is missing `repository`,
`repository.name`, `ref` or `commits`, or whose `repository.name` is not a
string, `ref` is not a string, or `commits` is not an array, is answered 400
INVALID_SCHEMA with the empty side-effect trace (no side effect occurs). -/
theorem c4_invalid_schema (data : Json) (eventType : Option String)
    (notify : String → Option PyExc)
    (h : hasNameStr (data.getField "repository") = false
       ∨ isStrOpt (data.getField "ref") = false
       ∨ isArrOpt (data.getField "commits") = false) :
    github_webhook "POST" eventType (some data) notify
      = (generate_error_response 400 "请求体数据格式不符合要求" "数据不符合push事件的JSON模式"
          (some "INVALID_SCHEMA"), []) := by
  have hv : push_event_schema_valid data = false := by
    cases hv : push_event_schema_valid data with
    | false => rfl
    | true =>
      obtain ⟨fields, rfields, refName, commits, rfl, hrep, ⟨nameS, hn⟩, href, hc⟩ :=
        schema_valid_elim data hv
      rcases h with h | h | h
      · simp [hasNameStr, Json.getField, hrep, hn, isStrOpt] at h
      · simp [Json.getField, href, isStrOpt] at h
      · simp [Json.getField, hc, isArrOpt] at h
  simp [github_webhook, github_webhook_with, push_event_schema_validate, hv]

/-- C4 witness: the empty JSON object, which lacks all three required keys. -/
theorem c4_invalid_schema_witness :
    hasNameStr ((Json.obj []).getField "repository") = false ∧
    github_webhook "POST" (some "push") (some (Json.obj [])) (fun _ => none)
      = (generate_error_response 400 "请求体数据格式不符合要求" "数据不符合push事件的JSON模式"
          (some "INVALID_SCHEMA"), []) :=
  ⟨rfl, c4_invalid_schema (Json.obj []) (some "push") (fun _ => none) (Or.inl rfl)⟩

/-- C2: the 100-commit cap is boundary-inclusive.  A schema-valid push payload
with exactly 100 well-formed commits is processed normally (formatter output is
produced and, when the notification succeeds, both sinks are invoked and the
response is 200); a payload with 101 or more commits is answered 400
VALUE_ERROR with the empty side-effect trace — no commit text is built and
neither sink is invoked, the cap being checked after schema validation and
before any formatting output. -/
theorem c2_commit_cap (data : Json) (commits : List Json)
    (notify : String → Option PyExc)
    (hvalid : push_event_schema_valid data = true)
    (hcommits : data.getField "commits" = some (Json.arr commits)) :
    (commits.length = 100 → (∀ c ∈ commits, StrictCommit c = true) →
      (∀ t, notify t = none) →
      ∃ text, build_commit_info_text (Json.arr commits) = .ok text ∧
        github_webhook "POST" (some "push") (some data) notify
          = (successResponse, [Event.notifyAttempt text, Event.fileAppend text])) ∧
    (commits.length ≥ 101 →
      github_webhook "POST" (some "push") (some data) notify
        = (generate_error_response 400 "提交数量异常" "提交数量超过限制"
            (some "VALUE_ERROR"), [])) := by
  have hcj : commitsJson data = Json.arr commits := by
    simp [commitsJson, hcommits]
  constructor
  · intro hlen hstrict hnotify
    have hbuild := build_commit_info_text_strict commits (by omega) hstrict
    refine ⟨strConcat (commits.map commitBlockOf), hbuild, ?_⟩
    rw [webhook_push_of_valid data notify hvalid,
      handle_push_of_valid data notify hvalid, hcj, hbuild]
    simp [push_info_to_misskey, hnotify]
  · intro hlen
    have hbuild : build_commit_info_text (Json.arr commits)
        = .error (.valueError "提交数量超过限制") := by
      simp only [build_commit_info_text, pyLen]
      rw [if_pos (by omega)]
    rw [webhook_push_of_valid data notify hvalid,
      handle_push_of_valid data notify hvalid, hcj, hbuild]
    rfl

/-- C2 witness: concrete instances at exactly 100 commits (success) and at 101
commits (VALUE_ERROR with no sink invocation). -/
theorem c2_commit_cap_witness :
    push_event_schema_valid (samplePayload (List.replicate 100 sampleCommit)) = true ∧
    (samplePayload (List.replicate 100 sampleCommit)).getField "commits"
      = some (Json.arr (List.replicate 100 sampleCommit)) ∧
    (∃ text,
      build_commit_info_text (Json.arr (List.replicate 100 sampleCommit)) = .ok text ∧
      github_webhook "POST" (some "push")
          (some (samplePayload (List.replicate 100 sampleCommit))) (fun _ => none)
        = (successResponse, [Event.notifyAttempt text, Event.fileAppend text])) ∧
    (List.replicate 101 Json.null).length ≥ 101 ∧
    github_webhook "POST" (some "push")
        (some (samplePayload (List.replicate 101 Json.null))) (fun _ => none)
      = (generate_error_response 400 "提交数量异常" "提交数量超过限制"
          (some "VALUE_ERROR"), []) :=
  ⟨rfl, rfl,
    (c2_commit_cap (samplePayload (List.replicate 100 sampleCommit))
        (List.replicate 100 sampleCommit) (fun _ => none) rfl rfl).1
      (by simp) (fun c hc => by rw [List.eq_of_mem_replicate hc]; rfl)
      (fun _ => rfl),
    by simp,
    (c2_commit_cap (samplePayload (List.replicate 101 Json.null))
        (List.replicate 101 Json.null) (fun _ => none) rfl rfl).2 (by simp)⟩

/-- C5: on any list of at most 100 well-formed commits the formatter emits
exactly one fixed-template block per commit, in input order: the static
waiting-notice line, the commit message, the author name, and a fenced file
list grouped modified first, then added, then removed, with the literal tags
[修改], [新增], [删除]; absent modified/added/removed fields contribute no
lines; and the result is a pure function of the commit list. -/
theorem c5_formatter_template (commits : List Json)
    (hlen : commits.length ≤ 100)
    (h : ∀ c ∈ commits, StrictCommit c = true) :
    build_commit_info_text (Json.arr commits)
      = .ok (strConcat (commits.map commitBlockOf)) :=
  build_commit_info_text_strict commits hlen h

/-- C5 witness: two commits, the second without any file-change fields, whose
formatted report is the concatenation of their two template blocks. -/
theorem c5_formatter_template_witness :
    ([sampleCommit, Json.obj [("message", Json.str "B"),
        ("author", Json.obj [("name", Json.str "Y")])]].length ≤ 100) ∧
    build_commit_info_text (Json.arr [sampleCommit,
        Json.obj [("message", Json.str "B"), ("author", Json.obj [("name", Json.str "Y")])]])
      = .ok (strConcat ([sampleCommit,
          Json.obj [("message", Json.str "B"),
            ("author", Json.obj [("name", Json.str "Y")])]].map commitBlockOf)) :=
  ⟨by decide,
    c5_formatter_template _ (by decide) (by decide)⟩

/-- C6: for every schema-valid push payload the handler runs formatter, then
notification, then persistence, in that order, and the first failure aborts
the rest: a formatter error leaves the trace empty (no sink invoked), a
notification failure leaves exactly the notification attempt in the trace (the
text is never appended to the file), and only when both sinks succeed does the
trace contain the notification attempt followed by the file append of the same
formatter output, with a 200 response. -/
theorem c6_sink_ordering (data : Json) (notify : String → Option PyExc)
    (hvalid : push_event_schema_valid data = true) :
    (∀ e, build_commit_info_text (commitsJson data) = .error e →
       github_webhook "POST" (some "push") (some data) notify
         = (pushErrorResponse e, [])) ∧
    (∀ text, build_commit_info_text (commitsJson data) = .ok text →
       (∀ e, notify text = some e →
          (github_webhook "POST" (some "push") (some data) notify).2
            = [Event.notifyAttempt text]) ∧
       (notify text = none →
          github_webhook "POST" (some "push") (some data) notify
            = (successResponse, [Event.notifyAttempt text, Event.fileAppend text]))) := by
  rw [webhook_push_of_valid data notify hvalid, handle_push_of_valid data notify hvalid]
  constructor
  · intro e he
    rw [he]
  · intro text htext
    rw [htext]
    constructor
    · intro e he
      simp only [push_info_to_misskey, he]
      split_ifs <;> rfl
    · intro hok
      simp [push_info_to_misskey, hok]

/-- C6 witness: concrete instance at a one-commit payload with a succeeding
notification sink. -/
theorem c6_sink_ordering_witness :
    push_event_schema_valid (samplePayload [sampleCommit]) = true ∧
    build_commit_info_text (commitsJson (samplePayload [sampleCommit]))
      = .ok (strConcat ([sampleCommit].map commitBlockOf)) ∧
    github_webhook "POST" (some "push") (some (samplePayload [sampleCommit]))
        (fun _ => none)
      = (successResponse,
         [Event.notifyAttempt (strConcat ([sampleCommit].map commitBlockOf)),
          Event.fileAppend (strConcat ([sampleCommit].map commitBlockOf))]) :=
  ⟨rfl, rfl,
    ((c6_sink_ordering (samplePayload [sampleCommit]) (fun _ => none) rfl).2
        (strConcat ([sampleCommit].map commitBlockOf)) rfl).2 rfl⟩

/-- C7 counterexample: a notification failure whose message "boom" contains
neither "network" nor "permission" but whose exception class is ValueError is
answered 400 VALUE_ERROR, not 500 GENERAL_ERROR: the bare `raise` in
`push_info_to_misskey` preserves the exception type, so classification is not
by message content alone. -/
theorem c7_notify_classification_counterexample :
    strContains "network" (strLower (PyExc.valueError "boom").toStr) = false ∧
    strContains "permission" (strLower (PyExc.valueError "boom").toStr) = false ∧
    (github_webhook "POST" (some "push") (some (samplePayload [sampleCommit]))
        (fun _ => some (PyExc.valueError "boom"))).1.status = 400 ∧
    (github_webhook "POST" (some "push") (some (samplePayload [sampleCommit]))
        (fun _ => some (PyExc.valueError "boom"))).1.errorCode = some "VALUE_ERROR" ∧
    ¬ (github_webhook "POST" (some "push") (some (samplePayload [sampleCommit]))
        (fun _ => some (PyExc.valueError "boom"))).1.errorCode = some "GENERAL_ERROR" :=
  ⟨rfl, rfl, rfl, rfl, by decide⟩

/-- C7 (amended): when the Misskey post fails during push handling, the
response is classified first by case-insensitive substring matching on the
failure message — "network" gives 500 CONNECTION_ERROR, otherwise "permission"
gives 500 PERMISSION_ERROR — and when neither substring occurs the original
exception is re-raised unchanged and classified by its type through the
webhook's except-chain (KeyError 500 KEY_MISSING, ValueError 400 VALUE_ERROR,
ConnectionError 500 CONNECTION_ERROR, PermissionError 500 PERMISSION_ERROR,
anything else 500 GENERAL_ERROR). -/
theorem c7_notify_failure_classification (data : Json)
    (notify : String → Option PyExc) (e : PyExc) (text : String)
    (hvalid : push_event_schema_valid data = true)
    (hbuild : build_commit_info_text (commitsJson data) = .ok text)
    (hfail : notify text = some e) :
    (github_webhook "POST" (some "push") (some data) notify).1
      = notifyFailureResponse e ∧
    (strContains "network" (strLower e.toStr) = true →
       notifyFailureResponse e
         = generate_error_response 500 "与Misskey平台连接失败"
             "与Misskey平台连接失败，请检查网络设置" (some "CONNECTION_ERROR")) ∧
    (strContains "network" (strLower e.toStr) = false →
     strContains "permission" (strLower e.toStr) = true →
       notifyFailureResponse e
         = generate_error_response 500 "Misskey平台访问权限验证失败"
             "Misskey平台访问权限验证失败，请检查访问令牌是否正确" (some "PERMISSION_ERROR")) ∧
    (strContains "network" (strLower e.toStr) = false →
     strContains "permission" (strLower e.toStr) = false →
       notifyFailureResponse e = pushErrorResponse e) := by
  refine ⟨?_, ?_, ?_, ?_⟩
  · rw [webhook_push_of_valid data notify hvalid,
      handle_push_of_valid data notify hvalid, hbuild]
    simp only [push_info_to_misskey, hfail, notifyFailureResponse]
    split_ifs <;> rfl
  · intro h1
    simp [notifyFailureResponse, h1, pushErrorResponse, generate_error_response]
  · intro h1 h2
    simp [notifyFailureResponse, h1, h2, pushErrorResponse, generate_error_response]
  · intro h1 h2
    simp [notifyFailureResponse, h1, h2]

/-- C7 witness: concrete instance at an uncategorised failure message, which
lands in the re-raise branch and is mapped to 500 GENERAL_ERROR. -/
theorem c7_notify_failure_classification_witness :
    push_event_schema_valid (samplePayload [sampleCommit]) = true ∧
    build_commit_info_text (commitsJson (samplePayload [sampleCommit]))
      = .ok (strConcat ([sampleCommit].map commitBlockOf)) ∧
    (github_webhook "POST" (some "push") (some (samplePayload [sampleCommit]))
        (fun _ => some (PyExc.other "misskey api error"))).1
      = notifyFailureResponse (PyExc.other "misskey api error") :=
  ⟨rfl, rfl,
    (c7_notify_failure_classification (samplePayload [sampleCommit])
        (fun _ => some (PyExc.other "misskey api error"))
        (PyExc.other "misskey api error")
        (strConcat ([sampleCommit].map commitBlockOf)) rfl rfl rfl).1⟩

/-- C8: a schema-valid push payload whose commit entries are objects shaped
well enough to be traversed (author, when present, an object; file lists, when
present, iterable) but where some commit lacks `message`, `author`, or
`author.name`, is answered 500 KEY_MISSING with the empty side-effect trace
(schema validation does not constrain commit elements, so the miss surfaces as
a KeyError during handling). -/
theorem c8_key_missing (data : Json) (commits : List Json)
    (notify : String → Option PyExc)
    (hvalid : push_event_schema_valid data = true)
    (hcommits : data.getField "commits" = some (Json.arr commits))
    (hlen : commits.length ≤ 100)
    (hsafe : ∀ c ∈ commits, SafeCommit c = true)
    (hlacks : ∃ c ∈ commits, LacksRequiredField c = true) :
    (github_webhook "POST" (some "push") (some data) notify).1.status = 500 ∧
    (github_webhook "POST" (some "push") (some data) notify).1.errorCode
      = some "KEY_MISSING" ∧
    (github_webhook "POST" (some "push") (some data) notify).2 = [] := by
  have hcj : commitsJson data = Json.arr commits := by
    simp [commitsJson, hcommits]
  obtain ⟨k, hk⟩ := buildCommitLoop_keyError commits "" hsafe hlacks
  have hbuild : build_commit_info_text (Json.arr commits)
      = .error (.keyError k) := by
    simp only [build_commit_info_text, pyLen, pyIter]
    rw [if_neg (by omega), hk]
  rw [webhook_push_of_valid data notify hvalid,
    handle_push_of_valid data notify hvalid, hcj, hbuild]
  exact ⟨rfl, rfl, rfl⟩

/-- C8 witness: a single commit entry that has an author but no message. -/
theorem c8_key_missing_witness :
    push_event_schema_valid
      (samplePayload [Json.obj [("author", Json.obj [("name", Json.str "X")])]]) = true ∧
    (∃ c ∈ [Json.obj [("author", Json.obj [("name", Json.str "X")])]],
       LacksRequiredField c = true) ∧
    (github_webhook "POST" (some "push")
        (some (samplePayload [Json.obj [("author", Json.obj [("name", Json.str "X")])]]))
        (fun _ => none)).1.status = 500 ∧
    (github_webhook "POST" (some "push")
        (some (samplePayload [Json.obj [("author", Json.obj [("name", Json.str "X")])]]))
        (fun _ => none)).1.errorCode = some "KEY_MISSING" ∧
    (github_webhook "POST" (some "push")
        (some (samplePayload [Json.obj [("author", Json.obj [("name", Json.str "X")])]]))
        (fun _ => none)).2 = [] := by
  refine ⟨rfl, by decide, ?_⟩
  have h := c8_key_missing
    (samplePayload [Json.obj [("author", Json.obj [("name", Json.str "X")])]])
    [Json.obj [("author", Json.obj [("name", Json.str "X")])]]
    (fun _ => none) rfl rfl (by decide) (by decide) (by decide)
  exact ⟨h.1, h.2.1, h.2.2⟩

/-- C9: the formatter is a list homomorphism into string concatenation: on the
empty list it returns the empty string, and on a concatenation of two commit
lists of combined length at most 100 it returns exactly the concatenation of
the two separate results (including agreement of the first raised exception,
when one side fails). -/
theorem c9_formatter_homomorphism :
    build_commit_info_text (Json.arr []) = .ok "" ∧
    ∀ (xs ys : List Json), xs.length + ys.length ≤ 100 →
      build_commit_info_text (Json.arr (xs ++ ys))
        = (match build_commit_info_text (Json.arr xs) with
           | .error e => .error e
           | .ok a =>
             match build_commit_info_text (Json.arr ys) with
             | .error e => .error e
             | .ok b => .ok (a ++ b)) := by
  refine ⟨rfl, ?_⟩
  intro xs ys h
  simp only [build_commit_info_text, pyLen, pyIter, List.length_append]
  rw [if_neg (by omega), if_neg (by omega), if_neg (by omega)]
  rw [buildCommitLoop_append xs ys ""]
  cases hlx : buildCommitLoop xs "" with
  | error e => rfl
  | ok a =>
    dsimp only
    exact buildCommitLoop_shift ys a

/-- C9 witness: concrete instance splitting a two-commit list. -/
theorem c9_formatter_homomorphism_witness :
    ([sampleCommit].length + [sampleCommit].length ≤ 100) ∧
    build_commit_info_text (Json.arr ([sampleCommit] ++ [sampleCommit]))
      = (match build_commit_info_text (Json.arr [sampleCommit]) with
         | .error e => .error e
         | .ok a =>
           match build_commit_info_text (Json.arr [sampleCommit]) with
           | .error e => .error e
           | .ok b => .ok (a ++ b)) :=
  ⟨by decide,
    c9_formatter_homomorphism.2 [sampleCommit] [sampleCommit] (by decide)⟩

/-- C10: a schema-valid push payload whose commits array is empty formats to
the empty string, and handling still invokes both sinks with that empty string
(a notification attempt with empty text, then an append of the empty chunk to
the file, via save_info_to_file); when the notification succeeds the response
is 200. -/
theorem c10_empty_commits (data : Json) (notify : String → Option PyExc)
    (hvalid : push_event_schema_valid data = true)
    (hcommits : data.getField "commits" = some (Json.arr []))
    (hnotify : notify "" = none) :
    build_commit_info_text (commitsJson data) = .ok "" ∧
    github_webhook "POST" (some "push") (some data) notify
      = (successResponse, [Event.notifyAttempt "", Event.fileAppend ""]) ∧
    (∀ fileState, applyTrace
        (github_webhook "POST" (some "push") (some data) notify).2 fileState
      = save_info_to_file "" fileState) := by
  have hcj : commitsJson data = Json.arr [] := by
    simp [commitsJson, hcommits]
  have hbuild : build_commit_info_text (commitsJson data) = .ok "" := by
    rw [hcj]; rfl
  have hweb : github_webhook "POST" (some "push") (some data) notify
      = (successResponse, [Event.notifyAttempt "", Event.fileAppend ""]) := by
    rw [webhook_push_of_valid data notify hvalid,
      handle_push_of_valid data notify hvalid, hbuild]
    simp [push_info_to_misskey, hnotify]
  exact ⟨hbuild, hweb, fun fileState => by rw [hweb]; rfl⟩

/-- C10 witness: concrete instance at a payload with an empty commits array. -/
theorem c10_empty_commits_witness :
    push_event_schema_valid (samplePayload []) = true ∧
    build_commit_info_text (commitsJson (samplePayload [])) = .ok "" ∧
    github_webhook "POST" (some "push") (some (samplePayload [])) (fun _ => none)
      = (successResponse, [Event.notifyAttempt "", Event.fileAppend ""]) ∧
    applyTrace (github_webhook "POST" (some "push") (some (samplePayload []))
        (fun _ => none)).2 []
      = save_info_to_file "" [] := by
  have h := c10_empty_commits (samplePayload []) (fun _ => none) rfl rfl rfl
  exact ⟨rfl, h.1, h.2.1, h.2.2 []⟩

end GithubToMisskey
